import Mathlib

/-!
Verification of the per-frame synchronization and swapchain-lifecycle
protocol of the Vulkan hello-triangle program (src/hello_triangle/main.cpp),
via a shallow embedding of the relevant functions in Lean.

The embedded functions are:
- chooseSwapSurfaceFormat, chooseSwapPresentMode, chooseSwapExtent
  (swapchain parameter selection);
- findMemoryType and the memory-type selection inside createBuffer;
- createSyncObjects (fence creation flags);
- recreateSwapChain (the minimized-window polling loop);
- drawFrame (the per-frame orchestrator), modelled as a function from an
  application state and an environment outcome record to a trace of the
  Vulkan calls issued plus either the successor state or the thrown error.
-/

namespace HelloTriangle

/-- constexpr int MAX_FRAMES_IN_FLIGHT = 2; (main.cpp line 35). -/
def MAX_FRAMES_IN_FLIGHT : Nat := 2

/-! ## Vulkan enumerations (only the values the program mentions) -/

/-- The VkPresentModeKHR values relevant to chooseSwapPresentMode. -/
inductive VkPresentModeKHR where
  | immediateKHR
  | mailboxKHR
  | fifoKHR
  | fifoRelaxedKHR
deriving DecidableEq, Repr

/-- The VkFormat values relevant to chooseSwapSurfaceFormat. -/
inductive VkFormat where
  | b8g8r8a8Srgb
  | b8g8r8a8Unorm
  | r8g8b8a8Srgb
deriving DecidableEq, Repr

/-- The VkColorSpaceKHR values relevant to chooseSwapSurfaceFormat. -/
inductive VkColorSpaceKHR where
  | srgbNonlinearKHR
  | otherColorSpace
deriving DecidableEq, Repr

/-- VkSurfaceFormatKHR: a pixel format together with a color space. -/
structure VkSurfaceFormatKHR where
  format : VkFormat
  colorSpace : VkColorSpaceKHR
deriving DecidableEq, Repr

/-- VkExtent2D: width and height in pixels (uint32_t in the source). -/
structure VkExtent2D where
  width : Nat
  height : Nat
deriving DecidableEq, Repr

/-- The fields of VkSurfaceCapabilitiesKHR that chooseSwapExtent reads. -/
structure VkSurfaceCapabilitiesKHR where
  currentExtent : VkExtent2D
  minImageExtent : VkExtent2D
  maxImageExtent : VkExtent2D
deriving DecidableEq, Repr

/-- std::numeric_limits of uint32_t, max(): the sentinel meaning the surface
extent is undefined. -/
def UINT32_MAX : Nat := 2 ^ 32 - 1

/-!
## chooseSwapSurfaceFormat (main.cpp lines 519-530)

The source iterates over pAvailableFormats; the first entry equal to
(VK_FORMAT_B8G8R8A8_SRGB, VK_COLOR_SPACE_SRGB_NONLINEAR_KHR) is returned;
if the loop finishes, pAvailableFormats[0] is returned.  Indexing an empty
vector is undefined behaviour in C++, so the embedding returns an Option:
none corresponds to the undefined empty-input case, which the program never
reaches (device selection requires a non-empty format list).
-/

/-- The condition tested inside the loop of chooseSwapSurfaceFormat. -/
def isDesiredSurfaceFormat (a : VkSurfaceFormatKHR) : Bool :=
  a.format == VkFormat.b8g8r8a8Srgb && a.colorSpace == VkColorSpaceKHR.srgbNonlinearKHR

/-- chooseSwapSurfaceFormat: first format matching the desired pair, else the
first element of the list (none only on the empty list, where the C++ would
index out of bounds). -/
def chooseSwapSurfaceFormat (pAvailableFormats : List VkSurfaceFormatKHR) :
    Option VkSurfaceFormatKHR :=
  match pAvailableFormats.find? isDesiredSurfaceFormat with
  | some availableFormat => some availableFormat
  | none => pAvailableFormats.head?

/-!
## chooseSwapPresentMode (main.cpp lines 532-543)

The source iterates over pAvailablePresentModes; the first entry equal to
VK_PRESENT_MODE_MAILBOX_KHR is returned.  If the loop finishes, the source
prints "Using FIFO present mode as mailbox is unavailable." and then returns
VK_PRESENT_MODE_IMMEDIATE_KHR (not FIFO).
-/

/-- chooseSwapPresentMode, embedded exactly as written: mailbox when present,
otherwise VK_PRESENT_MODE_IMMEDIATE_KHR. -/
def chooseSwapPresentMode (pAvailablePresentModes : List VkPresentModeKHR) :
    VkPresentModeKHR :=
  match pAvailablePresentModes.find? (fun m => m == VkPresentModeKHR.mailboxKHR) with
  | some availablePresentMode => availablePresentMode
  | none => VkPresentModeKHR.immediateKHR

/-!
## chooseSwapExtent (main.cpp lines 545-559)
-/

/-- std::clamp(v, lo, hi): lo if v < lo, hi if hi < v, else v. -/
def stdClamp (v lo hi : Nat) : Nat :=
  if v < lo then lo else if hi < v then hi else v

/-- chooseSwapExtent: the surface's currentExtent when its width is not the
uint32_t sentinel; otherwise the window framebuffer size (queried from the
windowing layer, passed here as fbWidth and fbHeight) clamped componentwise
to the surface's min and max image extents. -/
def chooseSwapExtent (fbWidth fbHeight : Nat)
    (pCapabilities : VkSurfaceCapabilitiesKHR) : VkExtent2D :=
  if pCapabilities.currentExtent.width ≠ UINT32_MAX then
    pCapabilities.currentExtent
  else
    { width := stdClamp fbWidth pCapabilities.minImageExtent.width
        pCapabilities.maxImageExtent.width,
      height := stdClamp fbHeight pCapabilities.minImageExtent.height
        pCapabilities.maxImageExtent.height }

/-!
## findMemoryType (main.cpp lines 1611-1624) and the memory-type selection
inside createBuffer (lines 1626-1658)
-/

/-- VkMemoryType: only the propertyFlags bitmask is read. -/
structure VkMemoryType where
  propertyFlags : Nat
deriving DecidableEq, Repr

/-- VK_MEMORY_PROPERTY_DEVICE_LOCAL_BIT = 0x1. -/
def VK_MEMORY_PROPERTY_DEVICE_LOCAL_BIT : Nat := 1

/-- VK_MEMORY_PROPERTY_HOST_VISIBLE_BIT = 0x2. -/
def VK_MEMORY_PROPERTY_HOST_VISIBLE_BIT : Nat := 2

/-- VK_MEMORY_PROPERTY_HOST_COHERENT_BIT = 0x4. -/
def VK_MEMORY_PROPERTY_HOST_COHERENT_BIT : Nat := 4

/-- The loop of findMemoryType, with i the running index: return the first i
such that pTypeFilter has bit i set and memoryTypes[i].propertyFlags contains
every bit of pProperties; none models the throw after the loop. -/
def findMemoryTypeAux (pTypeFilter pProperties : Nat) :
    List VkMemoryType → Nat → Option Nat
  | [], _ => none
  | mt :: rest, i =>
    if pTypeFilter.testBit i && (mt.propertyFlags &&& pProperties == pProperties) then
      some i
    else
      findMemoryTypeAux pTypeFilter pProperties rest (i + 1)

/-- findMemoryType: index of the first suitable memory type among the
device's memory types; none models the runtime_error throw. -/
def findMemoryType (memoryTypes : List VkMemoryType)
    (pTypeFilter pProperties : Nat) : Option Nat :=
  findMemoryTypeAux pTypeFilter pProperties memoryTypes 0

/-- The memoryTypeIndex computed inside createBuffer for its allocation:
the source calls findMemoryType(memRequirements.memoryTypeBits,
VK_MEMORY_PROPERTY_HOST_VISIBLE_BIT | VK_MEMORY_PROPERTY_HOST_COHERENT_BIT),
ignoring the pProperties argument of createBuffer. -/
def createBufferMemoryTypeIndex (memoryTypes : List VkMemoryType)
    (memoryTypeBits : Nat) (pProperties : Nat) : Option Nat :=
  let _ := pProperties
  findMemoryType memoryTypes memoryTypeBits
    (VK_MEMORY_PROPERTY_HOST_VISIBLE_BIT ||| VK_MEMORY_PROPERTY_HOST_COHERENT_BIT)

/-- The pProperties argument the vertex-buffer creation path passes to
createBuffer (main.cpp line 1739). -/
def createVertexBuffer_pProperties : Nat := VK_MEMORY_PROPERTY_DEVICE_LOCAL_BIT

/-- The pProperties argument the index-buffer creation path passes to
createBuffer (main.cpp line 1771). -/
def createIndexBuffer_pProperties : Nat := VK_MEMORY_PROPERTY_DEVICE_LOCAL_BIT

/-- The pProperties argument the shader-storage-buffer creation path passes
to createBuffer (main.cpp line 776). -/
def createShaderStorageBuffers_pProperties : Nat := VK_MEMORY_PROPERTY_DEVICE_LOCAL_BIT

/-!
## createSyncObjects (main.cpp lines 1959-1985)

The source fills one VkFenceCreateInfo with
flags = VK_FENCE_CREATE_SIGNALED_BIT and creates MAX_FRAMES_IN_FLIGHT
fences from it (together with the two semaphores per slot, whose create
infos carry no flags).
-/

/-- The flags field of VkFenceCreateInfo, reduced to the one bit the program
uses. -/
structure VkFenceCreateInfo where
  signaledBit : Bool
deriving DecidableEq, Repr

/-- The fenceInfo value built in createSyncObjects:
fenceInfo.flags = VK_FENCE_CREATE_SIGNALED_BIT. -/
def createSyncObjects_fenceInfo : VkFenceCreateInfo :=
  { signaledBit := true }

/-- The create infos of the MAX_FRAMES_IN_FLIGHT in-flight fences created by
the loop in createSyncObjects: every iteration passes the same fenceInfo. -/
def createSyncObjects_fences : List VkFenceCreateInfo :=
  (List.range MAX_FRAMES_IN_FLIGHT).map (fun _ => createSyncObjects_fenceInfo)

/-!
## recreateSwapChain (main.cpp lines 699-718)

The source reads the framebuffer size once, then loops re-reading it (and
blocking in glfwWaitEvents) while width or height is zero; only after the
loop does it idle the device, destroy the old swapchain and size-dependent
resources, and recreate them.  The windowing layer is modelled as the list
of sizes its successive glfwGetFramebufferSize calls report; the result is
the size with which the destroy-and-recreate sequence runs, or none when
the list is exhausted while every reported size had a zero component (the
loop would still be blocking in glfwWaitEvents, having destroyed nothing).
-/

/-- recreateSwapChain: first reported size with both components nonzero, the
size in hand when vkDeviceWaitIdle, cleanupSwapChain and the createSwapChain
sequence run; none while only zero-component sizes have been reported. -/
def recreateSwapChain : List (Nat × Nat) → Option (Nat × Nat)
  | [] => none
  | wh :: rest =>
    if wh.1 = 0 ∨ wh.2 = 0 then
      recreateSwapChain rest
    else
      some wh

/-!
## drawFrame (main.cpp lines 2038-2110)

The per-frame orchestrator.  The GPU and the presentation engine are
modelled by an environment record saying which in-flight submissions the
GPU completes before the fence wait, the result of vkAcquireNextImageKHR
(with the acquired image index), the result of vkQueueSubmit and the result
of vkQueuePresentKHR.  The application state carries mCurrentFrame, the
list of slots whose submitted command buffer has not yet signaled its fence
(a slot's in-flight fence is signaled exactly when the slot is not in this
list: the fences are created signaled, and vkResetFences is immediately
followed by the vkQueueSubmit that will signal the fence again),
mFramebufferResized, and a counter of recreateSwapChain calls.
vkWaitForFences with UINT64_MAX timeout returns only once the current
slot's fence is signaled, i.e. once the GPU has completed the slot's
outstanding submission if there was one.
-/

/-- VkResult, reduced to the four classes the drawFrame code distinguishes. -/
inductive VkResult where
  | success
  | suboptimalKHR
  | errorOutOfDateKHR
  | errorOther
deriving DecidableEq, Repr

/-- The mutable application state drawFrame reads and writes, plus the list
of in-flight (submitted, fence not yet signaled) slots and a count of
recreateSwapChain calls. -/
structure FrameSyncState where
  mCurrentFrame : Nat
  inFlight : List Nat
  mFramebufferResized : Bool
  recreations : Nat
deriving DecidableEq, Repr

/-- The state after createSyncObjects: frame index 0, no submission in
flight (every in-flight fence was created signaled), no pending resize. -/
def initialState : FrameSyncState :=
  { mCurrentFrame := 0, inFlight := [], mFramebufferResized := false, recreations := 0 }

/-- One drawFrame cycle's environment: what the driver and GPU do. -/
structure DrawEnv where
  gpuCompletions : List Nat
  acquireResult : VkResult
  imageIndex : Nat
  submitResult : VkResult
  presentResult : VkResult
deriving DecidableEq, Repr

/-- Trace of the externally visible calls one drawFrame cycle makes. -/
structure DrawTrace where
  waitedFenceIdx : Nat
  waitBlocked : Bool
  resetFenceIdx : Option Nat
  submittedSlot : Option Nat
  submitSignalFenceIdx : Option Nat
  presentedImage : Option Nat
deriving DecidableEq, Repr

/-- drawFrame.  Returns the trace of the cycle and either the successor
state or the message of the runtime_error thrown.  Following the source:
wait on mInFlightFences[mCurrentFrame]; acquire; on
VK_ERROR_OUT_OF_DATE_KHR clear mFramebufferResized, recreate the swapchain
and return; on any result other than success or VK_SUBOPTIMAL_KHR throw;
otherwise reset the current fence, re-record the command buffer, submit
signaling the same fence (throw if the submit fails), present; on
VK_ERROR_OUT_OF_DATE_KHR or VK_SUBOPTIMAL_KHR from the present recreate the
swapchain, on any other non-success present result throw; finally advance
mCurrentFrame to (mCurrentFrame + 1) % MAX_FRAMES_IN_FLIGHT. -/
def drawFrame (s : FrameSyncState) (env : DrawEnv) :
    DrawTrace × Except String FrameSyncState :=
  let afterGpu := s.inFlight.filter (fun j => decide (j ∉ env.gpuCompletions))
  let waitBlocked : Bool := decide (s.mCurrentFrame ∈ afterGpu)
  let inFlightAfterWait := afterGpu.filter (fun j => decide (j ≠ s.mCurrentFrame))
  match env.acquireResult with
  | VkResult.errorOutOfDateKHR =>
    ({ waitedFenceIdx := s.mCurrentFrame, waitBlocked := waitBlocked,
       resetFenceIdx := none, submittedSlot := none,
       submitSignalFenceIdx := none, presentedImage := none },
     Except.ok { s with
       inFlight := inFlightAfterWait,
       mFramebufferResized := false,
       recreations := s.recreations + 1 })
  | VkResult.errorOther =>
    ({ waitedFenceIdx := s.mCurrentFrame, waitBlocked := waitBlocked,
       resetFenceIdx := none, submittedSlot := none,
       submitSignalFenceIdx := none, presentedImage := none },
     Except.error "Couldn't acquire Vulkan swapchain image.")
  | _ =>
    if env.submitResult ≠ VkResult.success then
      ({ waitedFenceIdx := s.mCurrentFrame, waitBlocked := waitBlocked,
         resetFenceIdx := some s.mCurrentFrame, submittedSlot := none,
         submitSignalFenceIdx := none, presentedImage := none },
       Except.error "Couldn't submit Vulkan draw command buffer.")
    else
      let inFlightAfterSubmit := inFlightAfterWait ++ [s.mCurrentFrame]
      let trace : DrawTrace :=
        { waitedFenceIdx := s.mCurrentFrame, waitBlocked := waitBlocked,
          resetFenceIdx := some s.mCurrentFrame,
          submittedSlot := some s.mCurrentFrame,
          submitSignalFenceIdx := some s.mCurrentFrame,
          presentedImage := some env.imageIndex }
      match env.presentResult with
      | VkResult.errorOutOfDateKHR =>
        (trace, Except.ok
          { mCurrentFrame := (s.mCurrentFrame + 1) % MAX_FRAMES_IN_FLIGHT,
            inFlight := inFlightAfterSubmit,
            mFramebufferResized := s.mFramebufferResized,
            recreations := s.recreations + 1 })
      | VkResult.suboptimalKHR =>
        (trace, Except.ok
          { mCurrentFrame := (s.mCurrentFrame + 1) % MAX_FRAMES_IN_FLIGHT,
            inFlight := inFlightAfterSubmit,
            mFramebufferResized := s.mFramebufferResized,
            recreations := s.recreations + 1 })
      | VkResult.errorOther =>
        (trace, Except.error "Couldn't present Vulkan swap chain image.")
      | VkResult.success =>
        (trace, Except.ok
          { mCurrentFrame := (s.mCurrentFrame + 1) % MAX_FRAMES_IN_FLIGHT,
            inFlight := inFlightAfterSubmit,
            mFramebufferResized := s.mFramebufferResized,
            recreations := s.recreations })

/-- Iterated drawFrame from a state along a list of per-cycle environments,
stopping at a thrown error (which terminates the frame loop). -/
def runFrames (s : FrameSyncState) : List DrawEnv → Except String FrameSyncState
  | [] => Except.ok s
  | env :: envs =>
    match (drawFrame s env).2 with
    | Except.ok s' => runFrames s' envs
    | Except.error msg => Except.error msg

/-!
## Theorems
-/

/-- Auxiliary: std::clamp over Nat coincides with max-then-min when the
bounds are ordered. -/
theorem stdClamp_eq_max_min (v lo hi : Nat) (h : lo ≤ hi) :
    stdClamp v lo hi = max lo (min v hi) := by
  unfold stdClamp
  rcases lt_or_ge v lo with hv | hv
  · rw [if_pos hv]
    have hmin : min v hi = v := min_eq_left (le_trans (le_of_lt hv) h)
    rw [hmin, max_eq_left (le_of_lt hv)]
  · rw [if_neg (not_lt_of_ge hv)]
    rcases lt_or_ge hi v with hh | hh
    · rw [if_pos hh]
      have hmin : min v hi = hi := min_eq_right (le_of_lt hh)
      rw [hmin, max_eq_right h]
    · rw [if_neg (not_lt_of_ge hh)]
      have hmin : min v hi = v := min_eq_left hh
      rw [hmin, max_eq_right hv]

/-- C1: the claim states that when the mailbox mode is absent from the list,
chooseSwapPresentMode returns the FIFO/vsync mode; the code instead returns
VK_PRESENT_MODE_IMMEDIATE_KHR on that path (while printing that it is using
FIFO, contradicting its own message).  Evaluated at the failing input
[VK_PRESENT_MODE_FIFO_KHR]: the result is the immediate mode, not FIFO; the
mailbox half of the claim does hold, shown on a list containing mailbox. -/
theorem chooseSwapPresentMode_fallback_is_immediate :
    chooseSwapPresentMode [VkPresentModeKHR.fifoKHR] = VkPresentModeKHR.immediateKHR
    ∧ chooseSwapPresentMode [VkPresentModeKHR.fifoKHR] ≠ VkPresentModeKHR.fifoKHR
    ∧ chooseSwapPresentMode
        [VkPresentModeKHR.fifoKHR, VkPresentModeKHR.mailboxKHR, VkPresentModeKHR.immediateKHR]
        = VkPresentModeKHR.mailboxKHR := by
  refine ⟨rfl, ?_, rfl⟩
  decide

/-- C8: for every non-empty list of surface formats,
chooseSwapSurfaceFormat returns the (B8G8R8A8 sRGB, sRGB nonlinear) format
when some element matches both fields, and otherwise returns the first
element of the list. -/
theorem chooseSwapSurfaceFormat_spec (l : List VkSurfaceFormatKHR) (hne : l ≠ []) :
    ((∃ f ∈ l, f.format = VkFormat.b8g8r8a8Srgb
        ∧ f.colorSpace = VkColorSpaceKHR.srgbNonlinearKHR) →
      chooseSwapSurfaceFormat l =
        some { format := VkFormat.b8g8r8a8Srgb,
               colorSpace := VkColorSpaceKHR.srgbNonlinearKHR })
    ∧ ((∀ f ∈ l, f.format ≠ VkFormat.b8g8r8a8Srgb
          ∨ f.colorSpace ≠ VkColorSpaceKHR.srgbNonlinearKHR) →
      chooseSwapSurfaceFormat l = l.head? ∧ l.head? ≠ none) := by
  constructor
  · rintro ⟨f, hf_mem, hfmt, hcs⟩
    have hdes : isDesiredSurfaceFormat f = true := by
      simp [isDesiredSurfaceFormat, hfmt, hcs]
    have hsome : (l.find? isDesiredSurfaceFormat).isSome := by
      rw [List.find?_isSome]
      exact ⟨f, hf_mem, hdes⟩
    obtain ⟨g, hg⟩ := Option.isSome_iff_exists.mp hsome
    have hgdes : isDesiredSurfaceFormat g = true := List.find?_some hg
    have hgparts : g.format = VkFormat.b8g8r8a8Srgb
        ∧ g.colorSpace = VkColorSpaceKHR.srgbNonlinearKHR := by
      simpa [isDesiredSurfaceFormat] using hgdes
    have hg_eq : g = ⟨VkFormat.b8g8r8a8Srgb, VkColorSpaceKHR.srgbNonlinearKHR⟩ := by
      cases g
      simp only at hgparts
      simp [hgparts.1, hgparts.2]
    unfold chooseSwapSurfaceFormat
    rw [hg, hg_eq]
  · intro hnone
    have hfind : l.find? isDesiredSurfaceFormat = none := by
      rw [List.find?_eq_none]
      intro f hf
      rcases hnone f hf with hfmt | hcs
      · simp [isDesiredSurfaceFormat, hfmt]
      · simp [isDesiredSurfaceFormat, hcs]
    refine ⟨?_, ?_⟩
    · unfold chooseSwapSurfaceFormat
      rw [hfind]
    · cases l with
      | nil => exact absurd rfl hne
      | cons a as => simp

/-- C7: chooseSwapExtent returns the surface's current extent when its width
differs from the uint32_t sentinel; when the width equals the sentinel it
returns the framebuffer size clamped componentwise to the surface's min and
max image extents (stated through the max-min characterization of clamping,
under the ordering of the bounds that real surface capabilities satisfy). -/
theorem chooseSwapExtent_spec (fbWidth fbHeight : Nat)
    (caps : VkSurfaceCapabilitiesKHR) :
    (caps.currentExtent.width ≠ UINT32_MAX →
      chooseSwapExtent fbWidth fbHeight caps = caps.currentExtent)
    ∧ (caps.currentExtent.width = UINT32_MAX →
      (caps.minImageExtent.width ≤ caps.maxImageExtent.width →
        (chooseSwapExtent fbWidth fbHeight caps).width =
          max caps.minImageExtent.width (min fbWidth caps.maxImageExtent.width))
      ∧ (caps.minImageExtent.height ≤ caps.maxImageExtent.height →
        (chooseSwapExtent fbWidth fbHeight caps).height =
          max caps.minImageExtent.height (min fbHeight caps.maxImageExtent.height))) := by
  constructor
  · intro hdef
    unfold chooseSwapExtent
    rw [if_pos hdef]
  · intro hsent
    have hneg : ¬ caps.currentExtent.width ≠ UINT32_MAX := by
      simp [hsent]
    constructor
    · intro hw
      unfold chooseSwapExtent
      rw [if_neg hneg]
      exact stdClamp_eq_max_min fbWidth _ _ hw
    · intro hh
      unfold chooseSwapExtent
      rw [if_neg hneg]
      exact stdClamp_eq_max_min fbHeight _ _ hh

/-- C7 witness: both branches exercised at concrete inputs. -/
theorem chooseSwapExtent_spec_witness :
    chooseSwapExtent 800 600
        { currentExtent := { width := 640, height := 480 },
          minImageExtent := { width := 1, height := 1 },
          maxImageExtent := { width := 4096, height := 4096 } }
      = { width := 640, height := 480 }
    ∧ (chooseSwapExtent 8000 600
        { currentExtent := { width := UINT32_MAX, height := 0 },
          minImageExtent := { width := 100, height := 100 },
          maxImageExtent := { width := 4096, height := 4096 } }).width
      = max 100 (min 8000 4096) := by
  constructor
  · exact (chooseSwapExtent_spec 800 600
      { currentExtent := { width := 640, height := 480 },
        minImageExtent := { width := 1, height := 1 },
        maxImageExtent := { width := 4096, height := 4096 } }).1 (by decide)
  · exact ((chooseSwapExtent_spec 8000 600
      { currentExtent := { width := UINT32_MAX, height := 0 },
        minImageExtent := { width := 100, height := 100 },
        maxImageExtent := { width := 4096, height := 4096 } }).2 rfl).1 (by decide)

/-- C8 witness: the theorem applied to a concrete list with a matching
element, and to one without. -/
theorem chooseSwapSurfaceFormat_spec_witness :
    chooseSwapSurfaceFormat
        [{ format := VkFormat.b8g8r8a8Unorm, colorSpace := VkColorSpaceKHR.srgbNonlinearKHR },
         { format := VkFormat.b8g8r8a8Srgb, colorSpace := VkColorSpaceKHR.srgbNonlinearKHR }]
      = some { format := VkFormat.b8g8r8a8Srgb,
               colorSpace := VkColorSpaceKHR.srgbNonlinearKHR }
    ∧ chooseSwapSurfaceFormat
        [{ format := VkFormat.b8g8r8a8Unorm, colorSpace := VkColorSpaceKHR.srgbNonlinearKHR },
         { format := VkFormat.r8g8b8a8Srgb, colorSpace := VkColorSpaceKHR.otherColorSpace }]
      = some { format := VkFormat.b8g8r8a8Unorm,
               colorSpace := VkColorSpaceKHR.srgbNonlinearKHR } := by
  constructor
  · exact (chooseSwapSurfaceFormat_spec _ (by decide)).1
      ⟨{ format := VkFormat.b8g8r8a8Srgb, colorSpace := VkColorSpaceKHR.srgbNonlinearKHR },
        by decide, rfl, rfl⟩
  · have h := (chooseSwapSurfaceFormat_spec
      [{ format := VkFormat.b8g8r8a8Unorm, colorSpace := VkColorSpaceKHR.srgbNonlinearKHR },
       { format := VkFormat.r8g8b8a8Srgb, colorSpace := VkColorSpaceKHR.otherColorSpace }]
      (by decide)).2 (by decide)
    rw [h.1]
    rfl

/-- C10: the memory type createBuffer allocates from is selected solely by
the fixed requirement HOST_VISIBLE and HOST_COHERENT: the pProperties
argument has no influence (any two values give the same index, and the
index always equals the one findMemoryType computes for the fixed pair);
in particular the DEVICE_LOCAL requests of the vertex-, index- and
shader-storage-buffer paths are ignored, so a memory type without the
DEVICE_LOCAL bit can be chosen for them. -/
theorem createBuffer_ignores_pProperties :
    (∀ (memoryTypes : List VkMemoryType) (memoryTypeBits p p' : Nat),
      createBufferMemoryTypeIndex memoryTypes memoryTypeBits p =
        createBufferMemoryTypeIndex memoryTypes memoryTypeBits p'
      ∧ createBufferMemoryTypeIndex memoryTypes memoryTypeBits p =
        findMemoryType memoryTypes memoryTypeBits
          (VK_MEMORY_PROPERTY_HOST_VISIBLE_BIT ||| VK_MEMORY_PROPERTY_HOST_COHERENT_BIT))
    ∧ createBufferMemoryTypeIndex
        [{ propertyFlags := VK_MEMORY_PROPERTY_HOST_VISIBLE_BIT |||
             VK_MEMORY_PROPERTY_HOST_COHERENT_BIT }]
        1 createVertexBuffer_pProperties = some 0
    ∧ (VK_MEMORY_PROPERTY_HOST_VISIBLE_BIT ||| VK_MEMORY_PROPERTY_HOST_COHERENT_BIT)
        &&& VK_MEMORY_PROPERTY_DEVICE_LOCAL_BIT = 0
    ∧ createVertexBuffer_pProperties = VK_MEMORY_PROPERTY_DEVICE_LOCAL_BIT
    ∧ createIndexBuffer_pProperties = VK_MEMORY_PROPERTY_DEVICE_LOCAL_BIT
    ∧ createShaderStorageBuffers_pProperties = VK_MEMORY_PROPERTY_DEVICE_LOCAL_BIT := by
  refine ⟨fun memoryTypes memoryTypeBits p p' => ⟨rfl, rfl⟩, ?_, ?_, rfl, rfl, rfl⟩
  · decide
  · decide

/-- C9: the Resize Handler destroys and recreates the swapchain only with a
size whose width and height are both nonzero, that size being the first
such size the windowing layer reports (every earlier poll saw a zero
component); while every reported size has a zero component, nothing is
destroyed or recreated. -/
theorem recreateSwapChain_waits_for_nonzero (sizes : List (Nat × Nat)) :
    (∀ wh, recreateSwapChain sizes = some wh →
      wh.1 ≠ 0 ∧ wh.2 ≠ 0 ∧
      ∃ pre post, sizes = pre ++ wh :: post ∧ ∀ u ∈ pre, u.1 = 0 ∨ u.2 = 0)
    ∧ ((∀ wh ∈ sizes, wh.1 = 0 ∨ wh.2 = 0) → recreateSwapChain sizes = none) := by
  induction sizes with
  | nil =>
    constructor
    · intro wh h
      simp [recreateSwapChain] at h
    · intro _
      rfl
  | cons a rest ih =>
    constructor
    · intro wh h
      unfold recreateSwapChain at h
      by_cases hz : a.1 = 0 ∨ a.2 = 0
      · rw [if_pos hz] at h
        obtain ⟨h1, h2, pre, post, hsplit, hpre⟩ := ih.1 wh h
        refine ⟨h1, h2, a :: pre, post, by rw [hsplit]; rfl, ?_⟩
        intro u hu
        rcases List.mem_cons.mp hu with rfl | hu
        · exact hz
        · exact hpre u hu
      · rw [if_neg hz] at h
        push_neg at hz
        cases h
        exact ⟨hz.1, hz.2, [], rest, rfl, by intro u hu; cases hu⟩
    · intro hall
      unfold recreateSwapChain
      rw [if_pos (hall a (List.mem_cons_self a rest))]
      exact ih.2 (fun wh hw => hall wh (List.mem_cons_of_mem a hw))

/-- C9 witness: with sizes (0,0), (0,300), (400,300) the handler recreates
at (400,300), the first fully nonzero size; with all sizes zero it never
recreates. -/
theorem recreateSwapChain_waits_for_nonzero_witness :
    (400 ≠ 0 ∧ 300 ≠ 0 ∧
      ∃ pre post, [(0, 0), (0, 300), (400, 300)] = pre ++ (400, 300) :: post
        ∧ ∀ u ∈ pre, u.1 = 0 ∨ u.2 = 0)
    ∧ recreateSwapChain [(0, 0), (0, 300)] = none := by
  constructor
  · exact (recreateSwapChain_waits_for_nonzero [(0, 0), (0, 300), (400, 300)]).1
      (400, 300) rfl
  · exact (recreateSwapChain_waits_for_nonzero [(0, 0), (0, 300)]).2 (by decide)

/-!
## Per-frame orchestrator theorems
-/

/-- A drawFrame environment where every backend call succeeds. -/
def envAllOk : DrawEnv :=
  { gpuCompletions := [], acquireResult := VkResult.success, imageIndex := 0,
    submitResult := VkResult.success, presentResult := VkResult.success }

/-- An environment where vkAcquireNextImageKHR reports
VK_ERROR_OUT_OF_DATE_KHR. -/
def envAcqOOD : DrawEnv :=
  { envAllOk with acquireResult := VkResult.errorOutOfDateKHR }

/-- An environment where vkQueuePresentKHR reports VK_SUBOPTIMAL_KHR. -/
def envPresSub : DrawEnv :=
  { envAllOk with presentResult := VkResult.suboptimalKHR }

/-- C2: when acquisition reports out of date, the cycle submits no command
buffer, resets no fence, presents nothing, triggers one swapchain
recreation, keeps the frame index, and leaves the current slot's fence
signaled (the slot is not in flight) for the next attempt. -/
theorem drawFrame_acquire_out_of_date (s : FrameSyncState) (env : DrawEnv)
    (hacq : env.acquireResult = VkResult.errorOutOfDateKHR) :
    (drawFrame s env).1.submittedSlot = none
    ∧ (drawFrame s env).1.resetFenceIdx = none
    ∧ (drawFrame s env).1.presentedImage = none
    ∧ ∃ s', (drawFrame s env).2 = Except.ok s'
        ∧ s'.recreations = s.recreations + 1
        ∧ s'.mCurrentFrame = s.mCurrentFrame
        ∧ s'.mCurrentFrame ∉ s'.inFlight := by
  obtain ⟨gpu, acq, img, sub, pres⟩ := env
  simp only at hacq
  subst hacq
  refine ⟨rfl, rfl, rfl, _, rfl, rfl, rfl, ?_⟩
  simp [drawFrame, List.mem_filter]

/-- C2 witness: the theorem at the initial state and a concrete
acquisition-out-of-date environment. -/
theorem drawFrame_acquire_out_of_date_witness :
    (drawFrame initialState envAcqOOD).1.submittedSlot = none
    ∧ (drawFrame initialState envAcqOOD).1.resetFenceIdx = none
    ∧ (drawFrame initialState envAcqOOD).1.presentedImage = none
    ∧ ∃ s', (drawFrame initialState envAcqOOD).2 = Except.ok s'
        ∧ s'.recreations = initialState.recreations + 1
        ∧ s'.mCurrentFrame = initialState.mCurrentFrame
        ∧ s'.mCurrentFrame ∉ s'.inFlight :=
  drawFrame_acquire_out_of_date initialState envAcqOOD rfl

/-- C4: in every cycle that does not throw, the frame index advances to
(i + 1) mod MAX_FRAMES_IN_FLIGHT exactly when an image was acquired: on an
out-of-date acquisition the index is unchanged and nothing is submitted or
presented; otherwise the index advances, the command buffer is submitted,
and a present reporting out of date or suboptimal still advances the index
after running the resize handler once. -/
theorem drawFrame_frame_index_advance (s : FrameSyncState) (env : DrawEnv)
    (t : DrawTrace) (s' : FrameSyncState)
    (h : drawFrame s env = (t, Except.ok s')) :
    (env.acquireResult = VkResult.errorOutOfDateKHR →
      s'.mCurrentFrame = s.mCurrentFrame
      ∧ t.submittedSlot = none ∧ t.presentedImage = none
      ∧ s'.recreations = s.recreations + 1)
    ∧ (env.acquireResult ≠ VkResult.errorOutOfDateKHR →
      s'.mCurrentFrame = (s.mCurrentFrame + 1) % MAX_FRAMES_IN_FLIGHT
      ∧ t.submittedSlot = some s.mCurrentFrame
      ∧ ((env.presentResult = VkResult.errorOutOfDateKHR ∨
          env.presentResult = VkResult.suboptimalKHR) →
         s'.recreations = s.recreations + 1)) := by
  obtain ⟨gpu, acq, img, sub, pres⟩ := env
  cases acq <;> cases sub <;> cases pres <;> simp [drawFrame] at h <;>
    obtain ⟨ht, hs⟩ := h <;> subst ht <;> subst hs <;>
    constructor <;> intro hx <;> simp_all

/-- C4 witness: the theorem at the initial state, under an
acquisition-out-of-date environment (index 0 stays 0), an all-success
environment (index advances to 1), and a suboptimal-present environment
(index advances and the resize handler ran once). -/
theorem drawFrame_frame_index_advance_witness :
    (FrameSyncState.mk 0 [] false 1).mCurrentFrame = initialState.mCurrentFrame
    ∧ (FrameSyncState.mk 1 [0] false 0).mCurrentFrame =
        (initialState.mCurrentFrame + 1) % MAX_FRAMES_IN_FLIGHT
    ∧ (FrameSyncState.mk 1 [0] false 1).recreations = initialState.recreations + 1 :=
  ⟨((drawFrame_frame_index_advance initialState envAcqOOD _ _ rfl).1 rfl).1,
   ((drawFrame_frame_index_advance initialState envAllOk _ _ rfl).2 (by decide)).1,
   ((drawFrame_frame_index_advance initialState envPresSub _ _ rfl).2 (by decide)).2.2
     (Or.inr rfl)⟩

/-- C5: in every cycle, the fence waited on at the start is
mInFlightFences[mCurrentFrame], and whenever a submission happens it is for
that same slot and passes that same fence to vkQueueSubmit (after resetting
it); so the fence gating a slot's reuse is the fence its prior submission
signaled. -/
theorem drawFrame_fence_slot_pairing (s : FrameSyncState) (env : DrawEnv) :
    (drawFrame s env).1.waitedFenceIdx = s.mCurrentFrame
    ∧ ∀ k, (drawFrame s env).1.submittedSlot = some k →
        k = s.mCurrentFrame
        ∧ (drawFrame s env).1.submitSignalFenceIdx = some s.mCurrentFrame
        ∧ (drawFrame s env).1.resetFenceIdx = some s.mCurrentFrame := by
  obtain ⟨gpu, acq, img, sub, pres⟩ := env
  cases acq <;> cases sub <;> cases pres <;> simp [drawFrame]

/-- C5 witness: the theorem at the initial state in an all-success
environment, where the submission happens in slot 0. -/
theorem drawFrame_fence_slot_pairing_witness :
    (drawFrame initialState envAllOk).1.waitedFenceIdx = initialState.mCurrentFrame
    ∧ ((0 : Nat) = initialState.mCurrentFrame
        ∧ (drawFrame initialState envAllOk).1.submitSignalFenceIdx =
            some initialState.mCurrentFrame
        ∧ (drawFrame initialState envAllOk).1.resetFenceIdx =
            some initialState.mCurrentFrame) :=
  ⟨(drawFrame_fence_slot_pairing initialState envAllOk).1,
   (drawFrame_fence_slot_pairing initialState envAllOk).2 0 rfl⟩

/-- The invariant drawFrame maintains: the frame index is a valid slot, the
in-flight slots are pairwise distinct, and every in-flight slot is a valid
slot index. -/
def GoodState (s : FrameSyncState) : Prop :=
  s.mCurrentFrame < MAX_FRAMES_IN_FLIGHT
  ∧ s.inFlight.Nodup
  ∧ ∀ j ∈ s.inFlight, j < MAX_FRAMES_IN_FLIGHT

theorem goodState_initial : GoodState initialState := by
  refine ⟨by decide, List.nodup_nil, ?_⟩
  intro j hj
  cases hj

theorem goodState_drawFrame (s : FrameSyncState) (env : DrawEnv)
    (s' : FrameSyncState) (hs : GoodState s)
    (h : (drawFrame s env).2 = Except.ok s') : GoodState s' := by
  obtain ⟨hcur, hnd, hmem⟩ := hs
  obtain ⟨gpu, acq, img, sub, pres⟩ := env
  cases acq <;> cases sub <;> cases pres <;> simp [drawFrame] at h <;> subst h <;>
    refine ⟨?_, ?_, ?_⟩ <;>
    first
    | exact hcur
    | exact Nat.mod_lt _ (by decide)
    | exact (hnd.filter _)
    | (intro j hj
       exact hmem j (List.mem_of_mem_filter hj))
    | (rw [List.nodup_append]
       refine ⟨hnd.filter _, List.nodup_singleton _, ?_⟩
       intro j hj hj1
       rw [List.mem_singleton] at hj1
       subst hj1
       have := List.of_mem_filter hj
       simp at this)
    | (intro j hj
       rcases List.mem_append.mp hj with hj2 | hj2
       · exact hmem j (List.mem_of_mem_filter hj2)
       · rw [List.mem_singleton] at hj2
         subst hj2
         exact hcur)

theorem goodState_runFrames (envs : List DrawEnv) (s s' : FrameSyncState)
    (hs : GoodState s) (h : runFrames s envs = Except.ok s') : GoodState s' := by
  induction envs generalizing s with
  | nil =>
    simp [runFrames] at h
    subst h
    exact hs
  | cons env rest ih =>
    unfold runFrames at h
    cases hstep : (drawFrame s env).2 with
    | ok s₁ =>
      rw [hstep] at h
      exact ih s₁ (goodState_drawFrame s env s₁ hs hstep) h
    | error msg =>
      rw [hstep] at h
      cases h

theorem goodState_length_le (s : FrameSyncState) (hs : GoodState s) :
    s.inFlight.length ≤ MAX_FRAMES_IN_FLIGHT := by
  have h1 : s.inFlight.toFinset.card = s.inFlight.length :=
    List.toFinset_card_of_nodup hs.2.1
  have h2 : s.inFlight.toFinset ⊆ Finset.range MAX_FRAMES_IN_FLIGHT := by
    intro j hj
    rw [List.mem_toFinset] at hj
    exact Finset.mem_range.mpr (hs.2.2 j hj)
  calc s.inFlight.length = s.inFlight.toFinset.card := h1.symm
    _ ≤ (Finset.range MAX_FRAMES_IN_FLIGHT).card := Finset.card_le_card h2
    _ = MAX_FRAMES_IN_FLIGHT := Finset.card_range _

/-- C3: along every sequence of drawFrame cycles from the startup state, the
number of slots whose command buffer has been submitted but whose in-flight
fence has not yet been signaled never exceeds MAX_FRAMES_IN_FLIGHT: the
blocking fence wait at the start of each cycle completes the current slot's
outstanding work before the cycle submits again. -/
theorem runFrames_bounded_in_flight (envs : List DrawEnv)
    (s' : FrameSyncState) (h : runFrames initialState envs = Except.ok s') :
    s'.inFlight.length ≤ MAX_FRAMES_IN_FLIGHT :=
  goodState_length_le s' (goodState_runFrames envs initialState s' goodState_initial h)

/-- C3 witness: three all-success cycles from startup leave slots 1 and 0 in
flight, within the bound. -/
theorem runFrames_bounded_in_flight_witness :
    runFrames initialState [envAllOk, envAllOk, envAllOk] =
      Except.ok (FrameSyncState.mk 1 [1, 0] false 0)
    ∧ (FrameSyncState.mk 1 [1, 0] false 0).inFlight.length ≤ MAX_FRAMES_IN_FLIGHT :=
  ⟨rfl,
   runFrames_bounded_in_flight [envAllOk, envAllOk, envAllOk]
     (FrameSyncState.mk 1 [1, 0] false 0) rfl⟩

/-- Auxiliary: the fence wait of a cycle blocks exactly when the current
slot is still in flight after the completions the GPU delivered. -/
theorem drawFrame_waitBlocked_eq (s : FrameSyncState) (env : DrawEnv) :
    (drawFrame s env).1.waitBlocked =
      decide (s.mCurrentFrame ∈
        s.inFlight.filter (fun j => decide (j ∉ env.gpuCompletions))) := by
  obtain ⟨gpu, acq, img, sub, pres⟩ := env
  cases acq <;> cases sub <;> cases pres <;> rfl

/-- C6: createSyncObjects creates all MAX_FRAMES_IN_FLIGHT in-flight fences
with VK_FENCE_CREATE_SIGNALED_BIT set, so no slot starts with outstanding
work and the fence wait of the first drawFrame cycle through each slot (the
first two cycles from startup) returns without blocking, whatever the
environment does. -/
theorem createSyncObjects_fences_signaled :
    createSyncObjects_fences.length = MAX_FRAMES_IN_FLIGHT
    ∧ (∀ f ∈ createSyncObjects_fences, f.signaledBit = true)
    ∧ initialState.inFlight = []
    ∧ (∀ env, (drawFrame initialState env).1.waitBlocked = false)
    ∧ (∀ env₁ env₂ s₁, (drawFrame initialState env₁).2 = Except.ok s₁ →
        (drawFrame s₁ env₂).1.waitBlocked = false) := by
  refine ⟨by decide, by decide, rfl, ?_, ?_⟩
  · intro env
    rw [drawFrame_waitBlocked_eq]
    simp [initialState]
  · intro env₁ env₂ s₁ h
    have hnotin : s₁.mCurrentFrame ∉ s₁.inFlight := by
      obtain ⟨gpu, acq, img, sub, pres⟩ := env₁
      cases acq <;> cases sub <;> cases pres <;>
        simp [drawFrame, initialState] at h <;> subst h <;> decide
    rw [drawFrame_waitBlocked_eq]
    exact decide_eq_false (fun hm => hnotin (List.mem_of_mem_filter hm))

/-- C6 witness: the theorem applied at a concrete environment for the first
cycle and at the state after an all-success first cycle for the second. -/
theorem createSyncObjects_fences_signaled_witness :
    (drawFrame initialState envAllOk).1.waitBlocked = false
    ∧ (drawFrame (FrameSyncState.mk 1 [0] false 0) envAllOk).1.waitBlocked = false :=
  ⟨createSyncObjects_fences_signaled.2.2.2.1 envAllOk,
   createSyncObjects_fences_signaled.2.2.2.2 envAllOk envAllOk
     (FrameSyncState.mk 1 [0] false 0) rfl⟩

end HelloTriangle
